import Mathlib

/-!
Verification of the flunx-channels-api synchronization / reconciliation engine

Shallow embedding of the core logic of the repository (webhook ingestion,
message reconciliation, bulk sync, connection state machine, outbound
dispatch) found in `src/webhookEvolution.js`, `src/index.js`, `src/utils.js`
and `src/evolution.js`.

Conventions of the embedding:
* JavaScript values that may be `null`/`undefined` become `Option _`;
  `a ?? b` becomes `Option.orElse`; truthiness of a string value is
  `truthyS` (absent or empty string is falsy).
* Timestamps (ISO instants) are modelled as `Nat` milliseconds since the
  epoch; provider-supplied epoch seconds `t` convert via `t * 1000`
  (mirroring `new Date(Number(t) * 1000)`).
* The relational store is a `Store` of in-memory rows; `supabase` single-row
  inserts/updates become pure list operations.  Fresh primary keys come from
  a `nextId` counter.
* Fallible code paths (a JavaScript exception) are modelled with `Option`.
-/

set_option maxHeartbeats 1000000

namespace Flunx

/-- JS truthiness of an optional string (absent, `null` and `""` are falsy). -/
def truthyS : Option String → Bool
  | some s => s ≠ ""
  | none => false

/-- JS `${x || ""}` for an optional string `x`. -/
def orEmptyS (o : Option String) : String :=
  if truthyS o then o.getD "" else ""

/-- Whether `pat` occurs as a substring of `s`
    (JS `s.includes(pat)` for non-empty `pat`). -/
def strContains (s pat : String) : Bool :=
  (s.splitOn pat).length ≥ 2

/-!
Content Extractor (`extractMessageContent`, webhookEvolution.js 19-37
and the identical copy in utils.js 31-49)
-/

/-- A typed provider message body: the object inspected by
`extractMessageContent`.  `imageMessage := some cap` means the field is
present with optional caption `cap`; similarly for the other per-type
variants. -/
structure MsgBody where
  conversation : Option String := none
  /-- Field `extendedTextMessage?.text` -/
  extendedText : Option String := none
  /-- present ⇒ `some caption?` where the caption is `imageMessage.caption` -/
  imageMessage : Option (Option String) := none
  videoMessage : Option (Option String) := none
  audioMessage : Bool := false
  /-- present ⇒ `some fileName?` -/
  documentMessage : Option (Option String) := none
  stickerMessage : Bool := false
  /-- present ⇒ `some displayName?` -/
  contactMessage : Option (Option String) := none
  locationMessage : Bool := false
  deriving DecidableEq, Repr

/-- The resolved value of `msg?.message ?? msg`: either a raw string or a
typed body object. -/
inductive MsgVal where
  | vstr (s : String)
  | vobj (b : MsgBody)
  deriving DecidableEq, Repr

/-- Embedding of `extractMessageContent` applied to a body object (the cascade of
`if (message.conversation) ...` checks, webhookEvolution.js 23-36). -/
def extractBody (m : MsgBody) : Option String :=
  if truthyS m.conversation then m.conversation
  else if truthyS m.extendedText then m.extendedText
  else if truthyS (m.imageMessage.bind id) then
    some ("[Imagem] " ++ (m.imageMessage.bind id).getD "")
  else if m.imageMessage.isSome then some "[Imagem]"
  else if truthyS (m.videoMessage.bind id) then
    some ("[Vídeo] " ++ (m.videoMessage.bind id).getD "")
  else if m.videoMessage.isSome then some "[Vídeo]"
  else if m.audioMessage then some "[Áudio]"
  else if m.documentMessage.isSome then
    some ("[Documento] " ++ orEmptyS (m.documentMessage.bind id))
  else if m.stickerMessage then some "[Sticker]"
  else if m.contactMessage.isSome then
    some ("[Contato] " ++ orEmptyS (m.contactMessage.bind id))
  else if m.locationMessage then some "[Localização]"
  else none

/-- Embedding of `extractMessageContent` on the resolved `msg?.message ?? msg` value:
`null` stays `null`; a falsy (empty) string is rejected by
`if (!message) return null`; a non-empty string is returned as is;
an object goes through the typed cascade. -/
def extractMessageContent (message : Option MsgVal) : Option String :=
  match message with
  | none => none
  | some (.vstr s) => if s = "" then none else some s
  | some (.vobj b) => extractBody b

/-!
Connection state mapping (`handleConnectionUpdate`, webhookEvolution.js 49-56)
-/

/-- The `data` section of a CONNECTION_UPDATE event. -/
structure ConnData where
  state : Option String := none
  connectionStatus : Option String := none
  deriving DecidableEq, Repr

/-- Resolution `data?.state ?? data?.connectionStatus`. -/
def connStateToken (d : ConnData) : Option String :=
  d.state.orElse fun _ => d.connectionStatus

/-- The `connection_status` computed by `handleConnectionUpdate`
(webhookEvolution.js 51-56): starts at `"pending"` and is overwritten only
for the explicitly recognized tokens. -/
def connectionStatusFor (d : ConnData) : String :=
  let state := connStateToken d
  if state == some "open" || state == some "connected" || state == some "CONNECTED" then
    "connected"
  else if state == some "close" || state == some "disconnected" then
    "disconnected"
  else "pending"

/-!
The relational store (tables `chat_contacts`, `chat_conversations`,
`chat_messages`, `chat_inboxes`)
-/

/-- A row of `chat_contacts`.  `remote_jid` is optional because the webhook
path can insert a contact while `remoteJid` is `undefined`
(the field is then omitted and stored as SQL `NULL`). -/
structure ContactRow where
  id : Nat
  inbox_id : Nat
  organization_id : Nat
  remote_jid : Option String
  name : String
  contact_type : String
  avatar_url : Option String := none
  deriving DecidableEq, Repr

/-- A row of `chat_conversations` (the fields this core touches). -/
structure ConversationRow where
  id : Nat
  inbox_id : Nat
  contact_id : Nat
  organization_id : Nat
  status : String
  /-- Instant `updated_at` (ms); the DB default on insert is the insert time. -/
  updated_at : Nat
  deriving DecidableEq, Repr

/-- A row of `chat_messages`. -/
structure MessageRow where
  id : Nat
  conversation_id : Nat
  content : String
  direction : String
  message_type : String
  status : String
  evolution_message_id : Option String
  participant_remote_jid : Option String
  created_at : Nat
  deriving DecidableEq, Repr

/-- The in-memory store: the three row tables and a fresh-key counter. -/
structure Store where
  contacts : List ContactRow := []
  conversations : List ConversationRow := []
  messages : List MessageRow := []
  nextId : Nat := 1
  deriving DecidableEq, Repr

/-- The `(id, organization_id)` projection of the inbox row used by the
message-ingestion paths. -/
structure InboxRef where
  id : Nat
  organization_id : Nat
  deriving DecidableEq, Repr

/-- Append a message row (a successful `insert` into `chat_messages`),
consuming one fresh id. -/
def insertMessage (st : Store) (row : MessageRow) : Store :=
  { st with messages := st.messages ++ [row], nextId := st.nextId + 1 }

/-- Write `update chat_conversations set updated_at = ts where id = convId`. -/
def touchConversation (st : Store) (convId : Nat) (ts : Nat) : Store :=
  { st with conversations := st.conversations.map fun v =>
      if v.id == convId then { v with updated_at := ts } else v }

/-- The duplicate-existence check
`select id from chat_messages where evolution_message_id = mid` (for a
non-null, non-empty `mid`). -/
def messageIdExists (st : Store) (mid : String) : Bool :=
  st.messages.any fun m => m.evolution_message_id == some mid

/-- Number of stored message rows carrying external identifier `mid`. -/
def countMsgId (st : Store) (mid : String) : Nat :=
  (st.messages.filter fun m => m.evolution_message_id == some mid).length

/-- A supabase `.eq(column, value)` filter on a nullable text column where
the query value itself may be `undefined`: an `undefined` query value
matches no stored row. -/
def eqFilter (col : Option String) (q : Option String) : Bool :=
  match q with
  | some s => col == some s
  | none => false

/-!
Webhook message ingestion (`handleMessagesUpsert`,
webhookEvolution.js 157-231)
-/

/-- The `key` object of a webhook message event. -/
structure MsgKey where
  remoteJid : Option String := none
  remote_jid : Option String := none
  fromMe : Option Bool := none
  id : Option String := none
  messageId : Option String := none
  participant : Option String := none
  deriving DecidableEq, Repr

/-- One entry of the `messages.upsert` payload list. -/
structure UpsertMsg where
  key : Option MsgKey := none
  message : Option MsgVal := none
  messageType : Option String := none
  pushName : Option String := none
  push_name : Option String := none
  messageTimestamp : Option Nat := none
  message_timestamp : Option Nat := none
  deriving DecidableEq, Repr

/-- Chain `msg.key?.id ?? msg.key?.messageId` (webhookEvolution.js 199). -/
def msgEvolutionId (msg : UpsertMsg) : Option String :=
  (msg.key.bind MsgKey.id).orElse fun _ => msg.key.bind MsgKey.messageId

/-- Call `extractMessageContent(msg)` for a webhook event entry: the resolved
`msg?.message ?? msg` falls back to the event object itself, which carries
none of the content-shaped fields, hence extraction fails when `message`
is absent. -/
def extractUpsertContent (msg : UpsertMsg) : Option String :=
  extractMessageContent msg.message

/-- Whether `!msg.message` holds (absent, `null`, or the empty string). -/
def msgMessageFalsy (msg : UpsertMsg) : Bool :=
  match msg.message with
  | none => true
  | some (.vstr s) => s = ""
  | some (.vobj _) => false

/-- The `created_at` derivation of the webhook path (webhookEvolution.js
209-213): provider epoch seconds × 1000, else the processing instant. -/
def webhookCreatedAt (msg : UpsertMsg) (now : Nat) : Nat :=
  match msg.messageTimestamp.orElse fun _ => msg.message_timestamp with
  | some t => t * 1000
  | none => now

/-- The message row built by the webhook insert (webhookEvolution.js
215-224). -/
def webhookRow (st : Store) (conversationId : Nat) (msg : UpsertMsg)
    (content : Option String) (isFromMe isGroup : Bool) (now : Nat) : MessageRow :=
  let emid := msgEvolutionId msg
  { id := st.nextId
    conversation_id := conversationId
    content := content.getD ""
    direction := if isFromMe then "outgoing" else "incoming"
    message_type := if truthyS msg.messageType then msg.messageType.getD "text" else "text"
    status := if isFromMe then "sent" else "received"
    evolution_message_id := if truthyS emid then emid else none
    participant_remote_jid := if isGroup then msg.key.bind MsgKey.participant else none
    created_at := webhookCreatedAt msg now }

/-- The reconciliation core of the webhook loop (webhookEvolution.js
199-229): duplicate check on the external identifier, insert of the new
message row, and bump of the `updated_at` of the owning conversation to
the processing instant `now`. -/
def webhookReconcile (st : Store) (conversationId : Nat) (msg : UpsertMsg)
    (content : Option String) (isFromMe isGroup : Bool) (now : Nat) : Store :=
  let emid := msgEvolutionId msg
  if truthyS emid && messageIdExists st (emid.getD "") then st
  else
    touchConversation
      (insertMessage st (webhookRow st conversationId msg content isFromMe isGroup now))
      conversationId now

/-- Embedding of `findOrCreateContact` (webhookEvolution.js 90-127).  Returns `none`
when the JS code would throw (`remoteJid.split` on an `undefined`
identifier while `pushName` is falsy); otherwise the possibly-updated
store and the contact id. -/
def findOrCreateContact (st : Store) (inbox : InboxRef) (remoteJid : Option String)
    (pushName : Option String) (isGroup : Bool) : Option (Store × Nat) :=
  let existing := st.contacts.find? fun c =>
    c.inbox_id == inbox.id && eqFilter c.remote_jid remoteJid
  match existing with
  | some c =>
    if truthyS pushName && (pushName != some c.name) then
      let st1 := { st with contacts := st.contacts.map fun d =>
        if d.id == c.id then { d with name := pushName.getD d.name } else d }
      some (st1, c.id)
    else some (st, c.id)
  | none =>
    let name? : Option String :=
      if truthyS pushName then pushName
      else match remoteJid with
        | some r =>
          let h := (r.splitOn "@").headD ""
          some (if h ≠ "" then h else r)
        | none => none
    match name? with
    | none => none
    | some nm =>
      let c : ContactRow := {
        id := st.nextId
        inbox_id := inbox.id
        organization_id := inbox.organization_id
        remote_jid := remoteJid
        name := nm
        contact_type := if isGroup then "group" else "individual" }
      some ({ st with contacts := st.contacts ++ [c], nextId := st.nextId + 1 }, c.id)

/-- Embedding of `findOrCreateConversation` (webhookEvolution.js 129-155): lookup by
`(inbox_id, contact_id)`, create with `status = "open"` when absent. -/
def findOrCreateConversation (st : Store) (inbox : InboxRef) (contactId : Nat)
    (now : Nat) : Store × Nat :=
  match st.conversations.find? fun v =>
      v.inbox_id == inbox.id && v.contact_id == contactId with
  | some v => (st, v.id)
  | none =>
    let v : ConversationRow := {
      id := st.nextId
      inbox_id := inbox.id
      contact_id := contactId
      organization_id := inbox.organization_id
      status := "open"
      updated_at := now }
    ({ st with conversations := st.conversations ++ [v], nextId := st.nextId + 1 }, v.id)

/-- The per-message body of the `handleMessagesUpsert` loop
(webhookEvolution.js 176-230).  `none` models a thrown JS exception. -/
def processUpsertMsg (inbox : InboxRef) (now : Nat) (st : Store)
    (msg : UpsertMsg) : Option Store :=
  if (msg.key.bind MsgKey.fromMe).isNone then some st
  else if msg.messageType == some "protocolMessage" then some st
  else
    let remoteJid := (msg.key.bind MsgKey.remoteJid).orElse fun _ =>
      msg.key.bind MsgKey.remote_jid
    let isFromMe := (msg.key.bind MsgKey.fromMe).getD false
    let isGroup := match remoteJid with
      | some r => strContains r "@g.us"
      | none => false
    let content := extractUpsertContent msg
    if content.isNone && msgMessageFalsy msg then some st
    else
      let pushName := msg.pushName.orElse fun _ => msg.push_name
      match findOrCreateContact st inbox remoteJid pushName isGroup with
      | none => none
      | some (st1, contactId) =>
        let (st2, convId) := findOrCreateConversation st1 inbox contactId now
        some (webhookReconcile st2 convId msg content isFromMe isGroup now)

/-- The whole `handleMessagesUpsert` loop over the message list of the event;
an exception in one iteration aborts the remaining ones. -/
def handleMessagesUpsertList (inbox : InboxRef) (now : Nat) (st : Store)
    (msgs : List UpsertMsg) : Option Store :=
  msgs.foldlM (processUpsertMsg inbox now) st

/-!
Bulk sync: message reconciliation from a chat snapshot
(`upsertMessageFromChat`, index.js 551-611)
-/

/-- The `key` object of a chat-embedded message. -/
structure ChatMsgKey where
  id : Option String := none
  messageId : Option String := none
  fromMe : Option Bool := none
  from_me : Option Bool := none
  participant : Option String := none
  deriving DecidableEq, Repr

/-- A chat-embedded message of the chat snapshot of the provider. -/
structure ChatMsg where
  key : Option ChatMsgKey := none
  id : Option String := none
  messageId : Option String := none
  message : Option MsgVal := none
  text : Option String := none
  body : Option String := none
  fromMe : Option Bool := none
  messageType : Option String := none
  type : Option String := none
  messageTimestamp : Option Nat := none
  message_timestamp : Option Nat := none
  timestamp : Option Nat := none
  conversationTimestamp : Option Nat := none
  deriving DecidableEq, Repr

/-- Chain `message?.key?.id ?? message?.key?.messageId ?? message?.id ??
message?.messageId ?? null` (index.js 558-563). -/
def chatMsgEvolutionId (m : ChatMsg) : Option String :=
  (m.key.bind ChatMsgKey.id).orElse fun _ =>
    (m.key.bind ChatMsgKey.messageId).orElse fun _ =>
      m.id.orElse fun _ => m.messageId

/-- Chain `extractMessageContent(message) ?? message?.text ?? message?.body ??
message?.message?.conversation ?? null` (index.js 574-579).  As in the
webhook path, the `msg?.message ?? msg` fallback inside
`extractMessageContent` lands on the chat-message object itself, which has
no content-shaped fields. -/
def chatMsgContent (m : ChatMsg) : Option String :=
  (extractMessageContent m.message).orElse fun _ =>
    m.text.orElse fun _ =>
      m.body.orElse fun _ =>
        match m.message with
        | some (.vobj b) => b.conversation
        | _ => none

/-- Chain `message?.key?.fromMe ?? message?.key?.from_me ?? message?.fromMe ??
false` (index.js 582-586). -/
def chatMsgFromMe (m : ChatMsg) : Bool :=
  ((m.key.bind ChatMsgKey.fromMe).orElse fun _ =>
    (m.key.bind ChatMsgKey.from_me).orElse fun _ => m.fromMe).getD false

/-- The `created_at` derivation of the sync path (index.js 587-593): the first
populated timestamp field (epoch seconds) × 1000, else the processing
instant (`Date.now() / 1000` converted straight back). -/
def chatMsgCreatedAt (m : ChatMsg) (now : Nat) : Nat :=
  match m.messageTimestamp.orElse fun _ =>
      m.message_timestamp.orElse fun _ =>
        m.timestamp.orElse fun _ => m.conversationTimestamp with
  | some t => t * 1000
  | none => now

/-- Chain `message?.messageType || message?.type || "text"` (index.js 599). -/
def chatMsgKind (m : ChatMsg) : String :=
  if truthyS m.messageType then m.messageType.getD ""
  else if truthyS m.type then m.type.getD ""
  else "text"

/-- The message row built by the sync insert (index.js 595-604). -/
def chatMsgRow (st : Store) (convId : Nat) (isGroup : Bool) (m : ChatMsg)
    (c : String) (now : Nat) : MessageRow :=
  { id := st.nextId
    conversation_id := convId
    content := c
    direction := if chatMsgFromMe m then "outgoing" else "incoming"
    message_type := chatMsgKind m
    status := if chatMsgFromMe m then "sent" else "received"
    evolution_message_id := chatMsgEvolutionId m
    participant_remote_jid :=
      if isGroup then m.key.bind ChatMsgKey.participant else none
    created_at := chatMsgCreatedAt m now }

/-- Embedding of `upsertMessageFromChat` (index.js 551-611): duplicate
check on the external identifier, content extraction with its fallback
chain, insert, and bump of the `updated_at` of the conversation to the
`created_at` of the message.  Returns the new store and the `inserted`
flag. -/
def upsertMessageFromChat (st : Store) (conversationId : Option Nat)
    (_remoteJid : String) (isGroup : Bool) (message : Option ChatMsg)
    (now : Nat) : Store × Bool :=
  match conversationId, message with
  | some convId, some m =>
    let emid := chatMsgEvolutionId m
    if truthyS emid && messageIdExists st (emid.getD "") then (st, false)
    else
      match chatMsgContent m with
      | none => (st, false)
      | some c =>
        (touchConversation (insertMessage st (chatMsgRow st convId isGroup m c now))
          convId (chatMsgCreatedAt m now), true)
  | _, _ => (st, false)

/-!
Bulk sync: the chat loop (index.js 613-672)
-/

/-- The `chat.id` field: either an object (with `remoteJid` /
`_serialized`) or a raw string. -/
inductive ChatIdVal where
  | objId (remoteJid : Option String) (serialized : Option String)
  | strId (s : String)
  deriving DecidableEq, Repr

/-- A chat-snapshot entry. -/
structure Chat where
  id : Option ChatIdVal := none
  remoteJid : Option String := none
  remote_jid : Option String := none
  jid : Option String := none
  name : Option String := none
  pushName : Option String := none
  contactName : Option String := none
  subject : Option String := none
  profilePicUrl : Option String := none
  pictureUrl : Option String := none
  avatarUrl : Option String := none
  lastMessage : Option ChatMsg := none
  messages : Option (List ChatMsg) := none
  conversationTimestamp : Option Nat := none
  deriving DecidableEq, Repr

/-- The value of the resolution chain `chat?.id?.remoteJid ??
chat?.id?._serialized ?? chat?.id ?? chat?.remoteJid ?? chat?.remote_jid ??
chat?.jid ?? null` (index.js 616-623): a string, or the non-string `id`
object itself. -/
inductive JidVal where
  | jstr (s : String)
  | jobj
  deriving DecidableEq, Repr

/-- Resolve the chain above to its first non-nullish value. -/
def chatResolvedJid (c : Chat) : Option JidVal :=
  match c.id with
  | some (.objId rj ser) =>
    match rj with
    | some r => some (.jstr r)
    | none =>
      match ser with
      | some s => some (.jstr s)
      | none => some .jobj
  | some (.strId s) => some (.jstr s)
  | none =>
    (c.remoteJid.orElse fun _ =>
      c.remote_jid.orElse fun _ => c.jid).map .jstr

/-- The guard `if (!remoteJid || typeof remoteJid !== "string") continue`:
the usable remote identifier of a chat entry, when any. -/
def chatJidOk (c : Chat) : Option String :=
  match chatResolvedJid c with
  | some (.jstr s) => if s = "" then none else some s
  | _ => none

/-- Chain `chat?.name ?? chat?.pushName ?? chat?.contactName ?? chat?.subject ??
remoteJid.replace(@..., "")` (index.js 626-632). -/
def chatNameOf (c : Chat) (remoteJid : String) : String :=
  (c.name.orElse fun _ =>
    c.pushName.orElse fun _ =>
      c.contactName.orElse fun _ => c.subject).getD
    ((remoteJid.splitOn "@").headD "")

/-- Chain `chat?.profilePicUrl ?? chat?.pictureUrl ?? chat?.avatarUrl ?? null`. -/
def chatAvatarOf (c : Chat) : Option String :=
  c.profilePicUrl.orElse fun _ => c.pictureUrl.orElse fun _ => c.avatarUrl

/-- Chain `chat?.lastMessage ?? (last element of chat.messages when non-empty)`
(index.js 647-651). -/
def chatLastMessage (c : Chat) : Option ChatMsg :=
  c.lastMessage.orElse fun _ =>
    match c.messages with
    | some ms => ms.getLast?
    | none => none

/-- The sync pass state: the store plus the aggregate counters the
orchestrator reports. -/
structure SyncSt where
  store : Store
  contactsCreated : Nat := 0
  conversationsCreated : Nat := 0
  chatsProcessed : Nat := 0
  messagesInserted : Nat := 0
  deriving DecidableEq, Repr

/-- The contact phase of `upsertContactAndConversation` of the sync pass
(index.js 455-495): find-or-create the contact, refreshing name / kind /
avatar on a match, counting creations. -/
def syncUpsertContact (inbox : InboxRef) (s : SyncSt) (remoteJid name
    contactType : String) (avatarUrl : Option String) : SyncSt × Nat :=
  match s.store.contacts.find? fun c =>
      c.inbox_id == inbox.id && c.remote_jid == some remoteJid with
  | some c =>
    ({ s with store := { s.store with
        contacts := s.store.contacts.map fun d =>
          if d.id == c.id then
            { d with
              name := name
              contact_type := contactType
              avatar_url := if avatarUrl.isSome then avatarUrl else d.avatar_url }
          else d } }, c.id)
  | none =>
    ({ s with
        store := { s.store with
          contacts := s.store.contacts ++ [{
            id := s.store.nextId
            inbox_id := inbox.id
            organization_id := inbox.organization_id
            remote_jid := some remoteJid
            name := name
            contact_type := contactType
            avatar_url := avatarUrl }]
          nextId := s.store.nextId + 1 }
        contactsCreated := s.contactsCreated + 1 }, s.store.nextId)

/-- The conversation phase of `upsertContactAndConversation`
(index.js 497-524): find-or-create the open conversation, counting
creations. -/
def syncFindOrCreateConversation (inbox : InboxRef) (now : Nat) (s : SyncSt)
    (contactId : Nat) : SyncSt × Nat :=
  match s.store.conversations.find? fun v =>
      v.inbox_id == inbox.id && v.contact_id == contactId with
  | some v => (s, v.id)
  | none =>
    ({ s with
        store := { s.store with
          conversations := s.store.conversations ++ [{
            id := s.store.nextId
            inbox_id := inbox.id
            contact_id := contactId
            organization_id := inbox.organization_id
            status := "open"
            updated_at := now }]
          nextId := s.store.nextId + 1 }
        conversationsCreated := s.conversationsCreated + 1 }, s.store.nextId)

/-- Embedding of `upsertContactAndConversation` (index.js 446-525): the
guard on the identifier, the contact phase, then the conversation phase.
In this store model single-row inserts always succeed, so the early
`return null` paths of the source (insert errors) do not arise and both
ids are produced. -/
def syncUpsertContactAndConversation (inbox : InboxRef) (now : Nat)
    (s : SyncSt) (remoteJid : String) (name : String) (contactType : String)
    (avatarUrl : Option String) : SyncSt × Option (Nat × Option Nat) :=
  if remoteJid = "" then (s, none)
  else
    let (s1, contactId) := syncUpsertContact inbox s remoteJid name contactType avatarUrl
    let (s2, convId) := syncFindOrCreateConversation inbox now s1 contactId
    (s2, some (contactId, some convId))

/-- One iteration of the chat loop (index.js 615-671). -/
def processChat (inbox : InboxRef) (now : Nat) (s : SyncSt) (chat : Chat) :
    SyncSt :=
  match chatJidOk chat with
  | none => s
  | some remoteJid =>
    let isGroup := strContains remoteJid "@g.us"
    let (s1, r) := syncUpsertContactAndConversation inbox now s remoteJid
      (chatNameOf chat remoteJid) (if isGroup then "group" else "individual")
      (chatAvatarOf chat)
    match r with
    | some (_, some convId) =>
      match chatLastMessage chat with
      | some lm =>
        let (st2, inserted) :=
          upsertMessageFromChat s1.store (some convId) remoteJid isGroup (some lm) now
        if inserted then
          { s1 with
              store := st2
              chatsProcessed := s1.chatsProcessed + 1
              messagesInserted := s1.messagesInserted + 1 }
        else { s1 with store := st2 }
      | none =>
        match chat.conversationTimestamp with
        | some t =>
          if t ≠ 0 then
            { s1 with
                store := touchConversation s1.store convId (t * 1000)
                chatsProcessed := s1.chatsProcessed + 1 }
          else s1
        | none => s1
    | _ => s1

/-- The chat phase of the sync orchestrator (index.js 613-672):
`chats.slice(0, 100)` then the loop above. -/
def processChats (inbox : InboxRef) (now : Nat) (s : SyncSt)
    (chats : List Chat) : SyncSt :=
  (chats.take 100).foldl (processChat inbox now) s

/-!
Connection state machine (`handleConnectionUpdate`,
webhookEvolution.js 49-88) and `formatBrazilianPhone` (evolution.js 196-208)
-/

/-- The inbox row fields touched by the connection-update handler. -/
structure InboxRow where
  id : Nat
  organization_id : Nat
  name : String
  evolution_instance_name : Option String
  connection_status : String
  qr_code : Option String
  whatsapp_profile_name : Option String := none
  whatsapp_profile_pic_url : Option String := none
  whatsapp_jid : Option String := none
  whatsapp_phone_number : Option String := none
  contacts_count : Nat := 0
  conversations_count : Nat := 0
  updated_at : Nat := 0
  deriving DecidableEq, Repr

/-- The instance-info payload returned by `fetchInstanceInfo`
(`profileName`, `profilePicUrl`, `ownerJid`, `_count.Contact`,
`_count.Chat`). -/
structure InstanceInfo where
  profileName : Option String := none
  profilePicUrl : Option String := none
  ownerJid : Option String := none
  countContact : Option Nat := none
  countChat : Option Nat := none
  deriving DecidableEq, Repr

/-- The structured result of `fetchInstanceInfo` (evolution.js 147-166). -/
structure FetchInfoResult where
  success : Bool
  data : Option InstanceInfo := none
  deriving DecidableEq, Repr

/-- Embedding of `formatBrazilianPhone` (evolution.js 196-208): strip the domain suffix
and a leading `55`, then format 11- or 10-digit numbers. -/
def formatBrazilianPhone (jid : Option String) : String :=
  match jid with
  | none => ""
  | some j =>
    if j = "" then ""
    else
      let base := (j.splitOn "@").headD ""
      let number := if base.startsWith "55" then base.drop 2 else base
      if number.length = 11 then
        "(" ++ number.take 2 ++ ") " ++ (number.drop 2).take 5 ++ "-" ++ number.drop 7
      else if number.length = 10 then
        "(" ++ number.take 2 ++ ") " ++ (number.drop 2).take 4 ++ "-" ++ number.drop 6
      else number

/-- The `updates` record built by `handleConnectionUpdate`
(webhookEvolution.js 58-82).  A field of value `some v` is part of the
`update` write (with `some none` = set the column to SQL `NULL`); `none`
means the column is left untouched. -/
structure InboxPatch where
  connection_status : String
  updated_at : Nat
  qr_code : Option (Option String) := none
  whatsapp_profile_name : Option (Option String) := none
  whatsapp_profile_pic_url : Option (Option String) := none
  whatsapp_jid : Option (Option String) := none
  whatsapp_phone_number : Option (Option String) := none
  contacts_count : Option Nat := none
  conversations_count : Option Nat := none
  name : Option String := none
  deriving DecidableEq, Repr

/-- Build the `updates` record: on entry to `connected` the QR payload is
cleared and the best-effort `fetchInstanceInfo` call (an `Except` whose
`error` case is the caught-and-logged exception) may add the profile
fields. -/
def connectionUpdatePatch (d : ConnData) (fetch : Except String FetchInfoResult)
    (now : Nat) : InboxPatch :=
  let cs := connectionStatusFor d
  if cs = "connected" then
    let base : InboxPatch :=
      { connection_status := cs, updated_at := now, qr_code := some none }
    match fetch with
    | .error _ => base
    | .ok r =>
      match r.data with
      | some info =>
        if r.success then
          { base with
            whatsapp_profile_name := some info.profileName
            whatsapp_profile_pic_url := some info.profilePicUrl
            whatsapp_jid := some info.ownerJid
            whatsapp_phone_number := some (some (formatBrazilianPhone info.ownerJid))
            contacts_count := some (info.countContact.getD 0)
            conversations_count := some (info.countChat.getD 0)
            name :=
              if truthyS info.profileName && truthyS info.ownerJid then
                some ((info.profileName.getD "") ++ " - " ++
                  formatBrazilianPhone info.ownerJid)
              else none }
        else base
      | none => base
  else
    { connection_status := cs, updated_at := now }

/-- Apply the `updates` record to the inbox row
(`update chat_inboxes set ... where evolution_instance_name = ...`). -/
def applyInboxPatch (inbox : InboxRow) (p : InboxPatch) : InboxRow :=
  { inbox with
    connection_status := p.connection_status
    updated_at := p.updated_at
    qr_code := p.qr_code.getD inbox.qr_code
    whatsapp_profile_name := p.whatsapp_profile_name.getD inbox.whatsapp_profile_name
    whatsapp_profile_pic_url :=
      p.whatsapp_profile_pic_url.getD inbox.whatsapp_profile_pic_url
    whatsapp_jid := p.whatsapp_jid.getD inbox.whatsapp_jid
    whatsapp_phone_number := p.whatsapp_phone_number.getD inbox.whatsapp_phone_number
    contacts_count := p.contacts_count.getD inbox.contacts_count
    conversations_count := p.conversations_count.getD inbox.conversations_count
    name := p.name.getD inbox.name }

/-- Embedding of `handleConnectionUpdate` acting on the matched inbox row. -/
def handleConnectionUpdate (inbox : InboxRow) (d : ConnData)
    (fetch : Except String FetchInfoResult) (now : Nat) : InboxRow :=
  applyInboxPatch inbox (connectionUpdatePatch d fetch now)

/-!
The webhook endpoint (`handleEvolutionWebhook`,
webhookEvolution.js 298-348)
-/

/-- A JSON response body of the webhook endpoint. -/
inductive WebhookBody where
  /-- Body `{ success: true }` -/
  | success
  /-- Body `{ error: e }` -/
  | errorMsg (e : String)
  deriving DecidableEq, Repr

/-- One observable step of the webhook handler, in execution order. -/
inductive WebhookStep where
  /-- the event-specific processing (the `switch` dispatch) runs to completion -/
  | processEvent
  /-- Call `res.status(s).json(body)` -/
  | respond (status : Nat) (body : WebhookBody)
  deriving DecidableEq, Repr

/-- The observable trace of `handleEvolutionWebhook`: token check, supabase
check, then the awaited processing followed by the response; a processing
exception is caught and answered with status 500 carrying the error
message. -/
def handleEvolutionWebhook (secret : Option String) (token : Option String)
    (supabaseOk : Bool) (processing : Except String Unit) : List WebhookStep :=
  if truthyS secret && (token != secret) then
    [.respond 401 (.errorMsg "Unauthorized")]
  else if !supabaseOk then
    [.respond 503 (.errorMsg "Database not configured")]
  else
    match processing with
    | .ok _ => [.processEvent, .respond 200 .success]
    | .error e => [.processEvent, .respond 500 (.errorMsg e)]

/-!
Outbound dispatcher
(`POST /conversations/:conversationId/messages`, index.js 905-995)
-/

/-- The joined conversation row fetched by the send route: the provider
instance name of the inbox and the remote identifier of the contact. -/
structure SendRouteConv where
  id : Nat
  instanceName : Option String
  remoteJid : Option String
  deriving DecidableEq, Repr

/-- The outcome of the provider `sendText` call: its `success` flag and
`data?.key?.id`.  (`sendText` catches all transport errors itself, so a
failed call yields `success = false` with no data.) -/
structure SendResult where
  success : Bool
  keyId : Option String := none
  deriving DecidableEq, Repr

/-- JS `String.prototype.trim`, modelled on the character list (strip
whitespace from both ends). -/
def jsTrim (s : String) : String :=
  ((s.toList.dropWhile Char.isWhitespace).reverse.dropWhile
    Char.isWhitespace).reverse.asString

/-- The `sending` row inserted by the send route before the provider call
(index.js 949-959); `created_at` is the DB insert-time default. -/
def sendRow (st : Store) (c : SendRouteConv) (text : String) (now : Nat) :
    MessageRow :=
  { id := st.nextId
    conversation_id := c.id
    content := text
    direction := "outgoing"
    message_type := "text"
    status := "sending"
    evolution_message_id := none
    participant_remote_jid := none
    created_at := now }

/-- The post-send update on the just-inserted row (index.js 973-979):
`update chat_messages set status = newStatus, evolution_message_id = emid
where id = rowId`. -/
def updateMessageRow (st : Store) (rowId : Nat) (newStatus : String)
    (emid : Option String) : Store :=
  { st with messages := st.messages.map fun m =>
      if m.id == rowId then
        { m with status := newStatus, evolution_message_id := emid }
      else m }

/-- The send route (index.js 905-995): validation, precondition check,
insert of the `sending` row, provider call, status/identifier update on
that row, and the unconditional conversation bump.  Result: the store and
the HTTP status of the response. -/
def postConversationMessage (st : Store) (validId : Bool)
    (content : Option String) (conv : Option SendRouteConv)
    (sendResult : SendResult) (now : Nat) : Store × Nat :=
  if !validId then (st, 400)
  else
    let text := jsTrim (content.getD "")
    if text = "" then (st, 400)
    else
      match conv with
      | none => (st, 404)
      | some c =>
        if !(truthyS c.instanceName) || !(truthyS c.remoteJid) then (st, 400)
        else
          let st1 := insertMessage st (sendRow st c text now)
          let newStatus :=
            if sendResult.success && truthyS sendResult.keyId then "sent" else "failed"
          let st2 := updateMessageRow st1 st.nextId newStatus sendResult.keyId
          (touchConversation st2 c.id now, 201)

/-!
Helper lemmas
-/

theorem insertMessage_messages (st : Store) (r : MessageRow) :
    (insertMessage st r).messages = st.messages ++ [r] := rfl

theorem touchConversation_messages (st : Store) (c t : Nat) :
    (touchConversation st c t).messages = st.messages := rfl

theorem touchConversation_conversations (st : Store) (c t : Nat) :
    (touchConversation st c t).conversations
      = st.conversations.map fun v =>
          if v.id == c then { v with updated_at := t } else v := rfl

theorem countMsgId_eq_zero_iff (st : Store) (m : String) :
    countMsgId st m = 0 ↔ messageIdExists st m = false := by
  unfold countMsgId messageIdExists
  induction st.messages with
  | nil => simp
  | cons a t ih =>
    by_cases h : (a.evolution_message_id == some m) = true <;>
      simp [List.filter_cons, List.any_cons, h, ih]

theorem webhookReconcile_skip (st : Store) (cid : Nat) (msg : UpsertMsg)
    (ct : Option String) (f g : Bool) (now : Nat)
    (h : truthyS (msgEvolutionId msg) = true)
    (h2 : messageIdExists st ((msgEvolutionId msg).getD "") = true) :
    webhookReconcile st cid msg ct f g now = st := by
  unfold webhookReconcile
  simp [h, h2]

theorem webhookReconcile_insert (st : Store) (cid : Nat) (msg : UpsertMsg)
    (ct : Option String) (f g : Bool) (now : Nat)
    (h : (truthyS (msgEvolutionId msg)
        && messageIdExists st ((msgEvolutionId msg).getD "")) = false) :
    webhookReconcile st cid msg ct f g now
      = touchConversation (insertMessage st (webhookRow st cid msg ct f g now))
          cid now := by
  unfold webhookReconcile
  simp [h]

theorem upsertMessageFromChat_skip (st : Store) (cid : Nat) (rj : String)
    (g : Bool) (m : ChatMsg) (now : Nat)
    (h : truthyS (chatMsgEvolutionId m) = true)
    (h2 : messageIdExists st ((chatMsgEvolutionId m).getD "") = true) :
    upsertMessageFromChat st (some cid) rj g (some m) now = (st, false) := by
  unfold upsertMessageFromChat
  simp [h, h2]

theorem upsertMessageFromChat_insert (st : Store) (cid : Nat) (rj : String)
    (g : Bool) (m : ChatMsg) (now : Nat) (c : String)
    (hc : chatMsgContent m = some c)
    (h : (truthyS (chatMsgEvolutionId m)
        && messageIdExists st ((chatMsgEvolutionId m).getD "")) = false) :
    upsertMessageFromChat st (some cid) rj g (some m) now
      = (touchConversation (insertMessage st (chatMsgRow st cid g m c now))
          cid (chatMsgCreatedAt m now), true) := by
  unfold upsertMessageFromChat
  simp [h, hc]

theorem updateMessageRow_messages (st : Store) (rid : Nat) (s : String)
    (e : Option String) :
    (updateMessageRow st rid s e).messages
      = st.messages.map fun m =>
          if m.id == rid then
            { m with status := s, evolution_message_id := e }
          else m := rfl

/-!
C3 — content-extraction precedence and the image placeholder
-/

/-- Claim C3, counterexample: a body holding only an image with no caption
yields the Portuguese placeholder `"[Imagem]"`, not the string
`"[Image]"` asserted by the claim. -/
theorem extractBody_image_placeholder_counterexample :
    extractBody { imageMessage := some none } = some "[Imagem]" ∧
    extractBody { imageMessage := some none } ≠ some "[Image]" := by
  constructor <;> decide

/-- Claim C3 (amended): content extraction follows the precedence plain
conversation text → extended text → per-type caption → per-type
placeholder.  A body with non-empty `conversation` yields that plain text
whatever else is present; a body with no plain text, no extended text, and
an image with no caption yields exactly `"[Imagem]"`. -/
theorem extractBody_precedence :
    (∀ m : MsgBody, truthyS m.conversation = true → extractBody m = m.conversation) ∧
    (∀ m : MsgBody, truthyS m.conversation = false → truthyS m.extendedText = false →
      m.imageMessage = some none → extractBody m = some "[Imagem]") := by
  constructor
  · intro m h
    simp [extractBody, h]
  · intro m h1 h2 h3
    unfold extractBody
    rw [h1, h2, h3]
    simp [truthyS]

/-- Witness for `extractBody_precedence` at concrete bodies. -/
theorem extractBody_precedence_witness :
    extractBody { conversation := some "hi", imageMessage := some (some "cap") }
        = some "hi" ∧
    extractBody { imageMessage := some none } = some "[Imagem]" :=
  ⟨extractBody_precedence.1 _ (by decide),
   extractBody_precedence.2 _ (by decide) (by decide) rfl⟩

/-!
C4 — connection state token mapping
-/

/-- Claim C4, counterexample: the mapping has a third outcome.  The state
token `"connecting"` is neither an open/live token nor mapped to
`"disconnected"`: it leaves the status at `"pending"`. -/
theorem connectionStatusFor_counterexample :
    connectionStatusFor { state := some "connecting" } = "pending" ∧
    connectionStatusFor { state := some "connecting" } ≠ "disconnected" := by
  constructor <;> decide

/-- Claim C4 (amended): the state token maps to three outcomes, not two:
`open`/`connected`/`CONNECTED` set the status to `connected`,
`close`/`disconnected` set it to `disconnected`, and every other token
(including an absent one) leaves the default `pending`. -/
theorem connectionStatusFor_mapping (d : ConnData) :
    (connStateToken d = some "open" ∨ connStateToken d = some "connected" ∨
        connStateToken d = some "CONNECTED" →
      connectionStatusFor d = "connected") ∧
    (connStateToken d = some "close" ∨ connStateToken d = some "disconnected" →
      connectionStatusFor d = "disconnected") ∧
    (connStateToken d ≠ some "open" → connStateToken d ≠ some "connected" →
      connStateToken d ≠ some "CONNECTED" → connStateToken d ≠ some "close" →
      connStateToken d ≠ some "disconnected" →
      connectionStatusFor d = "pending") := by
  refine ⟨?_, ?_, ?_⟩
  · rintro (h | h | h) <;> (unfold connectionStatusFor; rw [h]; decide)
  · rintro (h | h) <;> (unfold connectionStatusFor; rw [h]; decide)
  · intro h1 h2 h3 h4 h5
    unfold connectionStatusFor
    have e1 := beq_eq_false_iff_ne.mpr h1
    have e2 := beq_eq_false_iff_ne.mpr h2
    have e3 := beq_eq_false_iff_ne.mpr h3
    have e4 := beq_eq_false_iff_ne.mpr h4
    have e5 := beq_eq_false_iff_ne.mpr h5
    simp [e1, e2, e3, e4, e5]

/-- Witness for `connectionStatusFor_mapping` at concrete tokens. -/
theorem connectionStatusFor_mapping_witness :
    connectionStatusFor { state := some "open" } = "connected" ∧
    connectionStatusFor { state := some "close" } = "disconnected" ∧
    connectionStatusFor { state := some "connecting" } = "pending" :=
  ⟨(connectionStatusFor_mapping _).1 (Or.inl rfl),
   (connectionStatusFor_mapping _).2.1 (Or.inl rfl),
   (connectionStatusFor_mapping _).2.2 (by decide) (by decide) (by decide)
     (by decide) (by decide)⟩

/-!
C5 — QR clearing and the non-blocking profile fetch
-/

/-- Claim C5: on every transition into `connected` the stored QR payload is
cleared, whatever the outcome of the best-effort profile fetch; in
particular a thrown fetch (the caught-and-logged `Except.error` case) does
not prevent the status update and QR clearing from being written. -/
theorem handleConnectionUpdate_qr_cleared (inbox : InboxRow) (d : ConnData)
    (now : Nat) (h : connectionStatusFor d = "connected") :
    ∀ fetch : Except String FetchInfoResult,
      (handleConnectionUpdate inbox d fetch now).qr_code = none ∧
      (handleConnectionUpdate inbox d fetch now).connection_status = "connected" := by
  intro fetch
  unfold handleConnectionUpdate connectionUpdatePatch
  rw [h]
  cases fetch with
  | error e => simp [applyInboxPatch]
  | ok r =>
    rcases r with ⟨succ, data⟩
    cases data <;> cases succ <;> simp [applyInboxPatch]

/-- Witness for `handleConnectionUpdate_qr_cleared`: a connected-state
event on an inbox holding a QR payload, with the profile fetch throwing. -/
theorem handleConnectionUpdate_qr_cleared_witness :
    (handleConnectionUpdate
        { id := 7, organization_id := 3, name := "Inbox",
          evolution_instance_name := some "inst-1",
          connection_status := "pending", qr_code := some "data:image/png;base64,AAA" }
        { state := some "open" } (.error "network down") 11).qr_code = none ∧
    (handleConnectionUpdate
        { id := 7, organization_id := 3, name := "Inbox",
          evolution_instance_name := some "inst-1",
          connection_status := "pending", qr_code := some "data:image/png;base64,AAA" }
        { state := some "open" } (.error "network down") 11).connection_status
      = "connected" :=
  handleConnectionUpdate_qr_cleared _ _ 11 (by decide) (.error "network down")

/-!
C6 — acknowledgment ordering and error surfacing of the webhook endpoint
-/

/-- Claim C6, counterexample: on an authorized delivery whose processing
raises an error, the handler responds only after the processing step, and
the response is HTTP 500 carrying the error message — not the fixed
success acknowledgment. -/
theorem handleEvolutionWebhook_counterexample :
    handleEvolutionWebhook none none true (.error "boom")
      = [.processEvent, .respond 500 (.errorMsg "boom")] ∧
    WebhookStep.respond 500 (.errorMsg "boom") ≠ .respond 200 .success := by
  constructor <;> decide

/-- Claim C6 (amended): for every authorized delivery the handler awaits
event processing first and responds afterwards: the success
acknowledgment is sent only when processing completed without error, and a
processing error is surfaced to the provider as HTTP 500 with the error
message. -/
theorem handleEvolutionWebhook_response (secret token : Option String)
    (p : Except String Unit)
    (hauth : truthyS secret = false ∨ token = secret) :
    handleEvolutionWebhook secret token true p
      = [WebhookStep.processEvent,
          match p with
          | .ok _ => WebhookStep.respond 200 .success
          | .error e => WebhookStep.respond 500 (.errorMsg e)] := by
  unfold handleEvolutionWebhook
  have hc : (truthyS secret && (token != secret)) = false := by
    rcases hauth with h | h
    · simp [h]
    · simp [h]
  rw [hc]
  cases p <;> rfl

/-- Witness for `handleEvolutionWebhook_response` on a successful
processing run with no shared secret configured. -/
theorem handleEvolutionWebhook_response_witness :
    handleEvolutionWebhook none none true (.ok ())
      = [WebhookStep.processEvent, WebhookStep.respond 200 .success] :=
  handleEvolutionWebhook_response none none (.ok ()) (Or.inl rfl)

/-!
C8 — outbound send precondition
-/

/-- Claim C8: an outbound send on a conversation whose inbox lacks a
provider instance name, or whose contact lacks a remote identifier, is
answered with the 400 precondition error and leaves the store untouched —
no message row is written. -/
theorem postConversationMessage_precondition (st : Store)
    (content : Option String) (c : SendRouteConv) (r : SendResult) (now : Nat)
    (h : truthyS c.instanceName = false ∨ truthyS c.remoteJid = false) :
    postConversationMessage st true content (some c) r now = (st, 400) := by
  have hcond : (!(truthyS c.instanceName) || !(truthyS c.remoteJid)) = true := by
    rcases h with h | h <;> simp [h]
  by_cases ht : jsTrim (content.getD "") = ""
  · simp [postConversationMessage, ht]
  · simp [postConversationMessage, ht, hcond]

/-- Witness for `postConversationMessage_precondition`: an inbox with no
provider instance name. -/
theorem postConversationMessage_precondition_witness :
    postConversationMessage {} true (some "hello")
        (some { id := 4, instanceName := none,
                remoteJid := some "5511@s.whatsapp.net" })
        { success := true, keyId := some "E1" } 9
      = ({}, 400) :=
  postConversationMessage_precondition {} (some "hello") _ _ 9 (Or.inl rfl)

/-!
C7 — durability of a failed outbound send
-/

/-- Claim C7: when the outbound preconditions hold and the provider call
fails or returns no external identifier (`sendText` returns no
`data.key.id` in either case), the route still answers 201 and exactly one
new message row remains, carrying `status = "failed"` and no external
message identifier; the row is updated in place, never deleted. -/
theorem postConversationMessage_failed_durable (st : Store)
    (content : Option String) (c : SendRouteConv) (r : SendResult) (now : Nat)
    (hinst : truthyS c.instanceName = true) (hjid : truthyS c.remoteJid = true)
    (htext : jsTrim (content.getD "") ≠ "") (hkey : r.keyId = none) :
    ((postConversationMessage st true content (some c) r now).1.messages.length
        = st.messages.length + 1) ∧
    ((((postConversationMessage st true content (some c) r now).1.messages.drop
        st.messages.length).map fun m => (m.status, m.evolution_message_id))
      = [("failed", (none : Option String))]) ∧
    (postConversationMessage st true content (some c) r now).2 = 201 := by
  have hcond : (!(truthyS c.instanceName) || !(truthyS c.remoteJid)) = false := by
    simp [hinst, hjid]
  have hns : (r.success && truthyS r.keyId) = false := by
    simp [hkey, truthyS]
  have hmain : postConversationMessage st true content (some c) r now
      = (touchConversation
          (updateMessageRow
            (insertMessage st (sendRow st c (jsTrim (content.getD "")) now))
            st.nextId "failed" none)
          c.id now, 201) := by
    unfold postConversationMessage
    simp [htext, hinst, hjid, hkey,
      show truthyS (none : Option String) = false from rfl]
  rw [hmain]
  refine ⟨?_, ?_, rfl⟩
  · simp [touchConversation_messages, updateMessageRow_messages,
      insertMessage_messages]
  · rw [touchConversation_messages, updateMessageRow_messages,
      insertMessage_messages, List.map_append]
    rw [List.drop_left' (by simp)]
    simp [sendRow]

/-- Witness for `postConversationMessage_failed_durable`: a failed provider
call on an empty store. -/
theorem postConversationMessage_failed_durable_witness :
    ((postConversationMessage {} true (some " hi ")
        (some { id := 4, instanceName := some "inst",
                remoteJid := some "5511@s.whatsapp.net" })
        { success := false } 9).1.messages.length = 1) ∧
    ((((postConversationMessage {} true (some " hi ")
        (some { id := 4, instanceName := some "inst",
                remoteJid := some "5511@s.whatsapp.net" })
        { success := false } 9).1.messages.drop 0).map
          fun m => (m.status, m.evolution_message_id))
      = [("failed", (none : Option String))]) ∧
    (postConversationMessage {} true (some " hi ")
        (some { id := 4, instanceName := some "inst",
                remoteJid := some "5511@s.whatsapp.net" })
        { success := false } 9).2 = 201 :=
  postConversationMessage_failed_durable {} (some " hi ") _ _ 9
    (by decide) (by decide) (by decide) rfl

/-!
C1 — idempotent reconciliation on the external message identifier
-/

/-- Claim C1: reconciling two message events that carry the same external
identifier yields exactly one stored message row.  The first
reconciliation inserts the row; the second — through either the webhook
path or the bulk-sync path — finds the existing row by that identifier and
returns the store unchanged (no insert). -/
theorem webhookReconcile_idempotent (st : Store) (cid cid2 : Nat)
    (msg msg2 : UpsertMsg) (ct ct2 : Option String) (f f2 g g2 : Bool)
    (now now2 : Nat) (m : String)
    (hm : msgEvolutionId msg = some m) (hm2 : msgEvolutionId msg2 = some m)
    (hne : m ≠ "") (h0 : countMsgId st m = 0) :
    countMsgId (webhookReconcile st cid msg ct f g now) m = 1 ∧
    webhookReconcile (webhookReconcile st cid msg ct f g now) cid2 msg2 ct2 f2 g2 now2
      = webhookReconcile st cid msg ct f g now ∧
    ∀ cid3 rj g3 lm now3, chatMsgEvolutionId lm = some m →
      upsertMessageFromChat (webhookReconcile st cid msg ct f g now)
          (some cid3) rj g3 (some lm) now3
        = (webhookReconcile st cid msg ct f g now, false) := by
  have htr : truthyS (some m) = true := by simp [truthyS, hne]
  have hex0 : messageIdExists st m = false := (countMsgId_eq_zero_iff st m).mp h0
  have hins := webhookReconcile_insert st cid msg ct f g now
    (by rw [hm, htr, Bool.true_and]; exact hex0)
  have hmsgs : (webhookReconcile st cid msg ct f g now).messages
      = st.messages ++ [webhookRow st cid msg ct f g now] := by
    rw [hins]; rfl
  have hrow : (webhookRow st cid msg ct f g now).evolution_message_id = some m := by
    simp [webhookRow, hm, htr]
  have hex1 : messageIdExists (webhookReconcile st cid msg ct f g now) m = true := by
    unfold messageIdExists
    rw [hmsgs, List.any_append]
    simp [hrow]
  refine ⟨?_, ?_, ?_⟩
  · unfold countMsgId at h0 ⊢
    rw [hmsgs, List.filter_append, List.length_append, h0]
    simp [hrow]
  · exact webhookReconcile_skip _ cid2 msg2 ct2 f2 g2 now2
      (by rw [hm2]; exact htr) (by rw [hm2]; exact hex1)
  · intro cid3 rj g3 lm now3 hlm
    exact upsertMessageFromChat_skip _ cid3 rj g3 lm now3
      (by rw [hlm]; exact htr) (by rw [hlm]; exact hex1)

/-- Witness for `webhookReconcile_idempotent`: the same `"M1"`-keyed event
reconciled twice against an empty store. -/
theorem webhookReconcile_idempotent_witness :
    countMsgId (webhookReconcile {} 1
        { key := some { fromMe := some false, id := some "M1" } }
        (some "hi") false false 5) "M1" = 1 ∧
    webhookReconcile (webhookReconcile {} 1
        { key := some { fromMe := some false, id := some "M1" } }
        (some "hi") false false 5) 1
        { key := some { fromMe := some false, id := some "M1" } }
        (some "hi") false false 6
      = webhookReconcile {} 1
          { key := some { fromMe := some false, id := some "M1" } }
          (some "hi") false false 5 ∧
    ∀ cid3 rj g3 lm now3, chatMsgEvolutionId lm = some "M1" →
      upsertMessageFromChat (webhookReconcile {} 1
          { key := some { fromMe := some false, id := some "M1" } }
          (some "hi") false false 5) (some cid3) rj g3 (some lm) now3
        = (webhookReconcile {} 1
            { key := some { fromMe := some false, id := some "M1" } }
            (some "hi") false false 5, false) :=
  webhookReconcile_idempotent {} 1 1 _ _ (some "hi") (some "hi")
    false false false false 5 6 "M1" rfl rfl (by decide) rfl

/-!
C2 — which timestamp each reconciliation path writes
-/

/-- Claim C2, counterexample: a webhook message event carrying provider
epoch-second timestamp 1700000000, processed at instant 5, stores the
message row with `created_at = 1700000000000` but bumps the owning
conversation to `updated_at = 5` — the processing time, not the message
timestamp the claim asserts. -/
theorem processUpsertMsg_timestamp_counterexample :
    ((processUpsertMsg { id := 7, organization_id := 3 } 5 {}
        { key := some { remoteJid := some "551199999999@s.whatsapp.net",
                        fromMe := some false, id := some "M1" }
          message := some (.vobj { conversation := some "hi" })
          messageTimestamp := some 1700000000 }).map fun st =>
        (st.conversations.map ConversationRow.updated_at,
         st.messages.map MessageRow.created_at))
      = some ([5], [1700000000000]) ∧ (5 : Nat) ≠ 1700000000000 := by
  exact ⟨by decide, by decide⟩

/-- Claim C2 (amended): every message event that passes the duplicate
check inserts a new row whose `created_at` is the message timestamp
(provider epoch seconds × 1000, or the processing instant when absent).
The bulk-sync path also sets the last-activity timestamp of the owning
conversation to that message timestamp, but the webhook path sets it to the
processing instant instead. -/
theorem reconcile_timestamp_derivation :
    (∀ st cid msg ct f g now,
      (truthyS (msgEvolutionId msg)
          && messageIdExists st ((msgEvolutionId msg).getD "")) = false →
      ((webhookReconcile st cid msg ct f g now).messages.getLast?).map
          MessageRow.created_at = some (webhookCreatedAt msg now) ∧
      (webhookReconcile st cid msg ct f g now).conversations
        = st.conversations.map fun v =>
            if v.id == cid then { v with updated_at := now } else v) ∧
    (∀ st cid rj g lm now c, chatMsgContent lm = some c →
      (truthyS (chatMsgEvolutionId lm)
          && messageIdExists st ((chatMsgEvolutionId lm).getD "")) = false →
      (((upsertMessageFromChat st (some cid) rj g (some lm) now).1.messages.getLast?).map
          MessageRow.created_at = some (chatMsgCreatedAt lm now)) ∧
      (upsertMessageFromChat st (some cid) rj g (some lm) now).1.conversations
        = st.conversations.map fun v =>
            if v.id == cid then { v with updated_at := chatMsgCreatedAt lm now }
            else v) := by
  constructor
  · intro st cid msg ct f g now h
    rw [webhookReconcile_insert st cid msg ct f g now h]
    constructor
    · rw [touchConversation_messages, insertMessage_messages,
        List.getLast?_concat]
      rfl
    · rfl
  · intro st cid rj g lm now c hc h
    rw [upsertMessageFromChat_insert st cid rj g lm now c hc h]
    constructor
    · rw [touchConversation_messages, insertMessage_messages,
        List.getLast?_concat]
      rfl
    · rfl

/-- Witness for `reconcile_timestamp_derivation` at concrete events on an
empty store. -/
theorem reconcile_timestamp_derivation_witness :
    (((webhookReconcile {} 1
        { key := some { fromMe := some false, id := some "M1" },
          messageTimestamp := some 1700000000 }
        (some "hi") false false 5).messages.getLast?).map
      MessageRow.created_at = some (webhookCreatedAt
        { key := some { fromMe := some false, id := some "M1" },
          messageTimestamp := some 1700000000 } 5)) ∧
    (((upsertMessageFromChat {} (some 1) "x" false
        (some { key := some { id := some "M2" }, text := some "oi",
                messageTimestamp := some 1700000000 }) 5).1.messages.getLast?).map
      MessageRow.created_at = some (chatMsgCreatedAt
        { key := some { id := some "M2" }, text := some "oi",
          messageTimestamp := some 1700000000 } 5)) :=
  ⟨(reconcile_timestamp_derivation.1 {} 1
      { key := some { fromMe := some false, id := some "M1" },
        messageTimestamp := some 1700000000 }
      (some "hi") false false 5 (by decide)).1,
   (reconcile_timestamp_derivation.2 {} 1 "x" false
      { key := some { id := some "M2" }, text := some "oi",
        messageTimestamp := some 1700000000 }
      5 "oi" rfl (by decide)).1⟩

/-!
C10 — identifier-less messages are inserted unconditionally
-/

/-- Claim C10: a message event with no external identifier (`key.id` and
`key.messageId` both absent) skips the duplicate check and is inserted
unconditionally with a null `evolution_message_id`; repeated deliveries
therefore each append a fresh row, in the webhook path and the bulk-sync
path alike. -/
theorem reconcile_no_id_always_inserts :
    (∀ st cid msg ct f g now, msgEvolutionId msg = none →
      (webhookReconcile st cid msg ct f g now).messages
          = st.messages ++ [webhookRow st cid msg ct f g now] ∧
      (webhookRow st cid msg ct f g now).evolution_message_id = none) ∧
    (∀ st cid msg ct f g now now2, msgEvolutionId msg = none →
      (webhookReconcile (webhookReconcile st cid msg ct f g now)
          cid msg ct f g now2).messages.length
        = st.messages.length + 2) ∧
    (∀ st cid rj g lm now c, chatMsgEvolutionId lm = none →
      chatMsgContent lm = some c →
      (upsertMessageFromChat st (some cid) rj g (some lm) now).2 = true ∧
      (upsertMessageFromChat st (some cid) rj g (some lm) now).1.messages
          = st.messages ++ [chatMsgRow st cid g lm c now] ∧
      (chatMsgRow st cid g lm c now).evolution_message_id = none) := by
  have hw : ∀ (st : Store) (cid : Nat) msg (ct : Option String) (f g : Bool)
      (now : Nat), msgEvolutionId msg = none →
      (webhookReconcile st cid msg ct f g now).messages
        = st.messages ++ [webhookRow st cid msg ct f g now] := by
    intro st cid msg ct f g now h
    rw [webhookReconcile_insert st cid msg ct f g now (by rw [h]; rfl)]
    rw [touchConversation_messages, insertMessage_messages]
  refine ⟨?_, ?_, ?_⟩
  · intro st cid msg ct f g now h
    exact ⟨hw st cid msg ct f g now h, by simp [webhookRow, h, truthyS]⟩
  · intro st cid msg ct f g now now2 h
    rw [hw _ cid msg ct f g now2 h, hw st cid msg ct f g now h]
    simp
  · intro st cid rj g lm now c h hc
    have hins := upsertMessageFromChat_insert st cid rj g lm now c hc
      (by rw [h]; rfl)
    rw [hins]
    exact ⟨rfl,
      by rw [touchConversation_messages, insertMessage_messages],
      by simp [chatMsgRow, h]⟩

/-- Witness for `reconcile_no_id_always_inserts`: an identifier-less text
event delivered twice against an empty store. -/
theorem reconcile_no_id_always_inserts_witness :
    ((webhookReconcile {} 1 { key := some { fromMe := some false } }
        (some "hi") false false 5).messages
      = [] ++ [webhookRow {} 1 { key := some { fromMe := some false } }
          (some "hi") false false 5]) ∧
    ((webhookReconcile (webhookReconcile {} 1
        { key := some { fromMe := some false } } (some "hi") false false 5)
        1 { key := some { fromMe := some false } }
        (some "hi") false false 6).messages.length = 0 + 2) ∧
    (upsertMessageFromChat {} (some 1) "x" false
        (some { text := some "oi" }) 5).2 = true :=
  ⟨(reconcile_no_id_always_inserts.1 {} 1
      { key := some { fromMe := some false } } (some "hi") false false 5 rfl).1,
   reconcile_no_id_always_inserts.2.1 {} 1
      { key := some { fromMe := some false } } (some "hi") false false 5 6 rfl,
   (reconcile_no_id_always_inserts.2.2 {} 1 "x" false
      { text := some "oi" } 5 "oi" rfl rfl).1⟩

/-!
C9 — the bounded chat phase of bulk sync
-/

theorem chatJidOk_ne_empty (c : Chat) (rj : String) (h : chatJidOk c = some rj) :
    rj ≠ "" := by
  unfold chatJidOk at h
  rcases hr : chatResolvedJid c with _ | v
  · rw [hr] at h; simp at h
  · rw [hr] at h
    cases v with
    | jstr s =>
      by_cases hs : s = ""
      · simp [hs] at h
      · simp [hs] at h
        exact h ▸ hs
    | jobj => simp at h

theorem syncUpsertContact_preserves (inbox : InboxRef) (s : SyncSt)
    (rj nm ctype : String) (av : Option String) :
    (syncUpsertContact inbox s rj nm ctype av).1.store.messages
        = s.store.messages ∧
    (syncUpsertContact inbox s rj nm ctype av).1.chatsProcessed
        = s.chatsProcessed ∧
    (syncUpsertContact inbox s rj nm ctype av).1.messagesInserted
        = s.messagesInserted := by
  unfold syncUpsertContact
  rcases h : s.store.contacts.find? (fun c =>
      c.inbox_id == inbox.id && c.remote_jid == some rj) with _ | c <;>
    rw [h] <;> exact ⟨rfl, rfl, rfl⟩

theorem syncFindOrCreateConversation_spec (inbox : InboxRef) (now : Nat)
    (s : SyncSt) (cid : Nat) :
    (syncFindOrCreateConversation inbox now s cid).1.store.messages
        = s.store.messages ∧
    (syncFindOrCreateConversation inbox now s cid).1.chatsProcessed
        = s.chatsProcessed ∧
    (syncFindOrCreateConversation inbox now s cid).1.messagesInserted
        = s.messagesInserted ∧
    ∃ v, v ∈ (syncFindOrCreateConversation inbox now s cid).1.store.conversations ∧
      v.id = (syncFindOrCreateConversation inbox now s cid).2 := by
  unfold syncFindOrCreateConversation
  rcases h : s.store.conversations.find? (fun v =>
      v.inbox_id == inbox.id && v.contact_id == cid) with _ | v <;> rw [h]
  · exact ⟨rfl, rfl, rfl, _,
      List.mem_append_right _ (List.mem_singleton.mpr rfl), rfl⟩
  · exact ⟨rfl, rfl, rfl, v, List.mem_of_find?_eq_some h, rfl⟩

theorem syncUpsertCC_spec (inbox : InboxRef) (now : Nat) (s : SyncSt)
    (rj nm ctype : String) (av : Option String) (h : rj ≠ "") :
    ∃ s2 cid convId,
      syncUpsertContactAndConversation inbox now s rj nm ctype av
          = (s2, some (cid, some convId)) ∧
      s2.store.messages = s.store.messages ∧
      s2.chatsProcessed = s.chatsProcessed ∧
      s2.messagesInserted = s.messagesInserted ∧
      ∃ v, v ∈ s2.store.conversations ∧ v.id = convId := by
  obtain ⟨hm1, hp1, hi1⟩ := syncUpsertContact_preserves inbox s rj nm ctype av
  obtain ⟨hm2, hp2, hi2, v, hv, hvid⟩ :=
    syncFindOrCreateConversation_spec inbox now
      (syncUpsertContact inbox s rj nm ctype av).1
      (syncUpsertContact inbox s rj nm ctype av).2
  refine ⟨(syncFindOrCreateConversation inbox now
      (syncUpsertContact inbox s rj nm ctype av).1
      (syncUpsertContact inbox s rj nm ctype av).2).1,
    (syncUpsertContact inbox s rj nm ctype av).2,
    (syncFindOrCreateConversation inbox now
      (syncUpsertContact inbox s rj nm ctype av).1
      (syncUpsertContact inbox s rj nm ctype av).2).2,
    ?_, hm2.trans hm1, hp2.trans hp1, hi2.trans hi1, v, hv, hvid⟩
  unfold syncUpsertContactAndConversation
  rw [if_neg h]

/-- Claim C9: chat-snapshot processing is bounded to the first 100 entries
of the snapshot (the whole pass equals the pass over `chats.take 100`,
whose length is at most 100); for every processed chat with a usable
identifier, when no last message is embedded and a non-zero last-activity
field is present the `updated_at` of the owning conversation is set from that
field, and when an embedded last message passes the content and duplicate
checks it is reconciled: exactly one message row is appended and the
`chats processed` / `messages inserted` counters grow by one. -/
theorem processChats_bounded (inbox : InboxRef) (now : Nat) :
    (∀ (s : SyncSt) (chats : List Chat),
      processChats inbox now s chats = processChats inbox now s (chats.take 100) ∧
      (chats.take 100).length ≤ 100) ∧
    (∀ (s : SyncSt) (chat : Chat) (rj : String) (t : Nat),
      chatJidOk chat = some rj → chatLastMessage chat = none →
      chat.conversationTimestamp = some t → t ≠ 0 →
      ∃ v, v ∈ (processChat inbox now s chat).store.conversations ∧
        v.updated_at = t * 1000) ∧
    (∀ (s : SyncSt) (chat : Chat) (rj : String) (lm : ChatMsg) (c : String),
      chatJidOk chat = some rj → chatLastMessage chat = some lm →
      chatMsgContent lm = some c →
      (truthyS (chatMsgEvolutionId lm)
          && messageIdExists s.store ((chatMsgEvolutionId lm).getD "")) = false →
      (processChat inbox now s chat).store.messages.length
          = s.store.messages.length + 1 ∧
      (processChat inbox now s chat).messagesInserted = s.messagesInserted + 1 ∧
      (processChat inbox now s chat).chatsProcessed = s.chatsProcessed + 1) := by
  refine ⟨?_, ?_, ?_⟩
  · intro s chats
    constructor
    · simp [processChats, List.take_take]
    · exact List.length_take_le 100 chats
  · intro s chat rj t hjid hlm hts htne
    have hrj := chatJidOk_ne_empty chat rj hjid
    obtain ⟨s2, cid, convId, hcc, hmsg, hcp, hmi, v, hv, hvid⟩ :=
      syncUpsertCC_spec inbox now s rj (chatNameOf chat rj)
        (if strContains rj "@g.us" then "group" else "individual")
        (chatAvatarOf chat) hrj
    have hpc : processChat inbox now s chat
        = { s2 with
            store := touchConversation s2.store convId (t * 1000)
            chatsProcessed := s2.chatsProcessed + 1 } := by
      unfold processChat
      rw [hjid]
      dsimp only
      rw [hcc]
      dsimp only
      rw [hlm]
      dsimp only
      rw [hts]
      dsimp only
      rw [if_pos htne]
    rw [hpc]
    refine ⟨{ v with updated_at := t * 1000 }, ?_, rfl⟩
    dsimp only
    rw [touchConversation_conversations]
    refine List.mem_map.mpr ⟨v, hv, ?_⟩
    simp [hvid]
  · intro s chat rj lm c hjid hlm hc hdup
    have hrj := chatJidOk_ne_empty chat rj hjid
    obtain ⟨s2, cid, convId, hcc, hmsg, hcp, hmi, v, hv, hvid⟩ :=
      syncUpsertCC_spec inbox now s rj (chatNameOf chat rj)
        (if strContains rj "@g.us" then "group" else "individual")
        (chatAvatarOf chat) hrj
    have hdup2 : (truthyS (chatMsgEvolutionId lm)
        && messageIdExists s2.store ((chatMsgEvolutionId lm).getD "")) = false := by
      unfold messageIdExists at hdup ⊢
      rw [hmsg]
      exact hdup
    have hins := upsertMessageFromChat_insert s2.store convId rj
      (strContains rj "@g.us") lm now c hc hdup2
    have hpc : processChat inbox now s chat
        = { s2 with
            store := touchConversation
              (insertMessage s2.store (chatMsgRow s2.store convId
                (strContains rj "@g.us") lm c now))
              convId (chatMsgCreatedAt lm now)
            chatsProcessed := s2.chatsProcessed + 1
            messagesInserted := s2.messagesInserted + 1 } := by
      unfold processChat
      rw [hjid]
      dsimp only
      rw [hcc]
      dsimp only
      rw [hlm]
      dsimp only
      rw [hins]
      simp
    rw [hpc]
    refine ⟨?_, ?_, ?_⟩
    · dsimp only
      rw [touchConversation_messages, insertMessage_messages, hmsg]
      simp
    · dsimp only
      rw [hmi]
    · dsimp only
      rw [hcp]

/-- Witness for `processChats_bounded`: one chat with only a last-activity
timestamp, and one chat with an embedded identifier-less text message,
each against an empty store. -/
theorem processChats_bounded_witness :
    (∃ v, v ∈ (processChat { id := 7, organization_id := 3 } 5 { store := {} }
        { id := some (.strId "5511@s.whatsapp.net"),
          conversationTimestamp := some 3 }).store.conversations ∧
      v.updated_at = 3 * 1000) ∧
    (processChat { id := 7, organization_id := 3 } 5 { store := {} }
        { id := some (.strId "5511@s.whatsapp.net"),
          lastMessage := some { text := some "oi" } }).store.messages.length
      = 1 :=
  ⟨(processChats_bounded { id := 7, organization_id := 3 } 5).2.1
      { store := {} }
      { id := some (.strId "5511@s.whatsapp.net"),
        conversationTimestamp := some 3 }
      "5511@s.whatsapp.net" 3 rfl rfl rfl (by decide),
   ((processChats_bounded { id := 7, organization_id := 3 } 5).2.2
      { store := {} }
      { id := some (.strId "5511@s.whatsapp.net"),
        lastMessage := some { text := some "oi" } }
      "5511@s.whatsapp.net" { text := some "oi" } "oi"
      rfl rfl rfl rfl).1⟩

end Flunx
